import Mathlib

/-
Verification of the browser-side client in `static/script.js`: a PDF
summarization / question-answering front end.  The script's page-lifetime
state (the four `let` variables at the top of the file together with the
mutable DOM regions it writes) is embedded as an explicit `ClientState`
record, and every event handler becomes a pure state-transition function
translated line by line from the source.  Network requests are made
explicit: a handler that issues a `fetch` is split into a request phase
(returning which request was issued, if any) and a response phase
(consuming the parsed JSON body).
-/

namespace InteractiveDocument

/-- A JS `File` object as far as the script inspects it: `name`, `size`
(bytes) and MIME `type`. -/
structure JsFile where
  name : String
  size : Nat
  type : String
deriving DecidableEq, Repr

/-- One entry of the chat transcript as built by `addChatMessage`: the
`role` argument, the `text` argument carried by the message, the label
text shown above it, and the `innerHTML` string assigned to the body
element. -/
structure ChatMsg where
  role : String
  text : String
  labelText : String
  bodyHtml : String
deriving DecidableEq, Repr

/-- Parsed JSON body of a `POST /upload` response, per the fields the
script reads: `success`, `filename`, `summary_bullets`,
`summary_detailed`, `summary_short`, `error`.  A missing (or `null`)
field is `none`. -/
structure UploadResponse where
  success : Bool
  filename : Option String
  summary_bullets : Option String
  summary_detailed : Option String
  summary_short : Option String
  error : Option String
deriving DecidableEq, Repr

/-- Parsed JSON body of a `POST /ask` response: `success`, `answer`,
`error`.  A missing field is `none`. -/
structure AskResponse where
  success : Bool
  answer : Option String
  error : Option String
deriving DecidableEq, Repr

/-- The script's page-lifetime mutable state: the four top-level `let`
variables (`currentFilename`, `lastBullets`, `lastDetailed`,
`lastShort`), the file input's `files` list, and the DOM regions the
script mutates (text content and visibility of the file-name display,
submit button, loaders, error regions, summary section, the dropdown
value, the list of tab modes carrying the active-highlight class, the
chat transcript children and the question input value). -/
structure ClientState where
  currentFilename : String
  lastBullets : String
  lastDetailed : String
  lastShort : String
  fileInputFiles : List JsFile
  fileNameText : String
  fileNameVisible : Bool
  submitBtnVisible : Bool
  loaderVisible : Bool
  errorText : String
  errorVisible : Bool
  summaryVisible : Bool
  summaryTitle : String
  summaryContent : String
  summaryModeValue : String
  activeTabs : List String
  chatMessages : List ChatMsg
  qaLoaderVisible : Bool
  qaErrorText : String
  qaErrorVisible : Bool
  questionInputValue : String
deriving DecidableEq, Repr

/-- JS string truthiness fallback `s || d` for a plain string `s`. -/
def jsOrStr (s d : String) : String :=
  if s = "" then d else s

/-- JS truthiness fallback `o || d` where `o` is a field that may be
missing (`undefined`) or an empty string; both are falsy. -/
def jsOrOpt (o : Option String) (d : String) : String :=
  match o with
  | none => d
  | some s => if s = "" then d else s

/-- Function `showError(message)`: write the message into the upload error region
and reveal it. -/
def showError (st : ClientState) (message : String) : ClientState :=
  { st with errorText := message, errorVisible := true }

/-- Function `showQAError(message)`: write the message into the question-answering
error region and reveal it. -/
def showQAError (st : ClientState) (message : String) : ClientState :=
  { st with qaErrorText := message, qaErrorVisible := true }

/-- The size ceiling `maxSize = 20 * 1024 * 1024` from `handleFileSelect`. -/
def maxSize : Nat := 20 * 1024 * 1024

/-- Handler `handleFileSelect()`: read `fileInput.files[0]`; bail out when absent;
reject a non-PDF MIME type or an oversized file with an inline error;
otherwise surface the file name, show the submit button, hide the error
and summary regions, and clear the cached summaries, the current
filename and the rendered summary content. -/
def handleFileSelect (st : ClientState) : ClientState :=
  match st.fileInputFiles.head? with
  | none => st
  | some file =>
    if file.type ≠ "application/pdf" then
      showError st "❌ Please upload a PDF file"
    else if file.size > maxSize then
      showError st "❌ File too large (max 20MB)"
    else
      { st with
          fileNameText := "✅ Selected: " ++ file.name
          fileNameVisible := true
          submitBtnVisible := true
          errorVisible := false
          summaryVisible := false
          lastBullets := ""
          lastDetailed := ""
          lastShort := ""
          currentFilename := ""
          summaryContent := "" }

/-- Per-character translation of `escapeHtml(text)` (which routes the
text through `div.textContent` and reads back `div.innerHTML`): the HTML
serialization of a text node escapes `&`, `<` and `>` and leaves every
other character unchanged. -/
def escapeChar (c : Char) : List Char :=
  if c = '&' then "&amp;".data
  else if c = '<' then "&lt;".data
  else if c = '>' then "&gt;".data
  else [c]

/-- Function `escapeHtml(text)` from the script, as a pure string function. -/
def escapeHtml (text : String) : String :=
  ⟨text.data.flatMap escapeChar⟩

/-- Per-character translation of `.replace(/\n/g, '<br>')`: the pattern
is the single character `\n`, so the replacement is character-wise. -/
def brChar (c : Char) : List Char :=
  if c = '\n' then "<br>".data else [c]

/-- The global-newline replacement `s.replace(/\n/g, '<br>')`. -/
def newlineToBr (s : String) : String :=
  ⟨s.data.flatMap brChar⟩

/-- Function `addChatMessage(role, text)`: build a message element whose label is
`🧑 You` for the user role and `🤖 sunny` otherwise, whose body
`innerHTML` is `escapeHtml(text).replace(/\n/g, '<br>')`, and append it
to the chat transcript. -/
def addChatMessage (st : ClientState) (role text : String) : ClientState :=
  let label := if role = "user" then "🧑 You" else "🤖 sunny"
  let body := newlineToBr (escapeHtml text)
  { st with chatMessages := st.chatMessages ++ [⟨role, text, label, body⟩] }

/-- The three summary-variant keys.  Modelled from the spec: the tab
controls (`.tab-btn` elements and their `data-mode` attributes) and the
dropdown options live in the page markup, which is not part of the
source tree; the spec fixes the variant keys as `bullets|short|detailed`
with one tab control per key. -/
def tabModes : List String := ["bullets", "short", "detailed"]

/-- Function `showSelectedSummary()`: read the dropdown mode, pick the cached text
for that variant with a fixed placeholder when the cached string is
falsy, set the title and the summary body, and set the active-highlight
class on exactly the tab buttons whose `data-mode` equals the mode. -/
def showSelectedSummary (st : ClientState) : ClientState :=
  let mode := st.summaryModeValue
  let pair :=
    if mode = "bullets" then
      (jsOrStr st.lastBullets "No bullet summary available.", "• Bullet Point Summary")
    else if mode = "short" then
      (jsOrStr st.lastShort "No short overview available.", "🔎 Short Overview")
    else
      (jsOrStr st.lastDetailed "No detailed overview available.", "📄 Detailed Overview")
  { st with
      summaryTitle := pair.2
      summaryContent := pair.1
      activeTabs := tabModes.filter (fun m => m == mode) }

/-- The dropdown `change` handler: the browser has already set
`summaryModeSelect.value` to the chosen key, then the listener runs
`showSelectedSummary`. -/
def summaryModeChange (key : String) (st : ClientState) : ClientState :=
  showSelectedSummary { st with summaryModeValue := key }

/-- The `.tab-btn` `click` handler: set `summaryModeSelect.value` to the
button's `data-mode`, then run `showSelectedSummary`. -/
def tabBtnClick (key : String) (st : ClientState) : ClientState :=
  showSelectedSummary { st with summaryModeValue := key }

/-- Request phase of `uploadFile()`: bail out when `fileInput.files[0]`
is absent; otherwise show the loader, hide the submit button, hide the
error region, and issue the `POST /upload` carrying the file in the
`pdf` form field.  Returns the file POSTed, when one is. -/
def uploadFileStart (st : ClientState) : Option JsFile × ClientState :=
  match st.fileInputFiles.head? with
  | none => (none, st)
  | some file =>
    (some file,
     { st with loaderVisible := true, submitBtnVisible := false, errorVisible := false })

/-- Response phase of `uploadFile()` on a parsed JSON body: on success
store `data.filename || ''` and the three `data.summary_* || ''` fields,
rerun `showSelectedSummary`, and reveal the summary section; on failure
show `'❌ ' + (data.error || 'Unknown error')` and re-show the submit
button.  The `finally` block hides the loader either way. -/
def uploadFileResponse (st : ClientState) (data : UploadResponse) : ClientState :=
  let st' :=
    if data.success then
      let st' :=
        { st with
            currentFilename := jsOrOpt data.filename ""
            lastBullets := jsOrOpt data.summary_bullets ""
            lastDetailed := jsOrOpt data.summary_detailed ""
            lastShort := jsOrOpt data.summary_short "" }
      let st' := showSelectedSummary st'
      { st' with summaryVisible := true }
    else
      let st' := showError st ("❌ " ++ jsOrOpt data.error "Unknown error")
      { st' with submitBtnVisible := true }
  { st' with loaderVisible := false }

/-- JS `String.prototype.trim()`: strip leading and trailing whitespace
characters, written as structural recursion over the character list so
it evaluates. -/
def jsTrim (s : String) : String :=
  ⟨((s.data.dropWhile Char.isWhitespace).reverse.dropWhile Char.isWhitespace).reverse⟩

/-- Outcome of the synchronous prefix of `askQuestion()`: one of the two
local `alert` notices, or a `POST /ask` request carrying the question
and the current filename. -/
inductive AskOutcome where
  | alertNoUpload
  | alertEmptyQuestion
  | request (question filename : String)
deriving DecidableEq, Repr

/-- Synchronous prefix of `askQuestion()`: trim the input; `alert` and
return untouched when `currentFilename` is falsy, then when the trimmed
question is falsy; otherwise show the QA loader, hide the QA error,
optimistically append the user message, and issue the `POST /ask` with
the question and `currentFilename`. -/
def askQuestionStart (st : ClientState) : AskOutcome × ClientState :=
  let question := jsTrim st.questionInputValue
  if st.currentFilename = "" then
    (AskOutcome.alertNoUpload, st)
  else if question = "" then
    (AskOutcome.alertEmptyQuestion, st)
  else
    let st' := { st with qaLoaderVisible := true, qaErrorVisible := false }
    let st' := addChatMessage st' "user" question
    (AskOutcome.request question st.currentFilename, st')

/-- Response phase of `askQuestion()` on a parsed JSON body: on success
append the assistant message `data.answer || 'No answer returned.'` and
clear the question input; on failure show
`'❌ ' + (data.error || 'Unknown error')` in the QA error region.  The
`finally` block hides the QA loader either way. -/
def askQuestionResponse (st : ClientState) (data : AskResponse) : ClientState :=
  let st' :=
    if data.success then
      let st' := addChatMessage st "assistant" (jsOrOpt data.answer "No answer returned.")
      { st' with questionInputValue := "" }
    else
      showQAError st ("❌ " ++ jsOrOpt data.error "Unknown error")
  { st' with qaLoaderVisible := false }

/-- Handler `askQuestion()` run to completion against a parsed response body:
the response phase runs exactly when the request was issued. -/
def askQuestion (st : ClientState) (data : AskResponse) : AskOutcome × ClientState :=
  match askQuestionStart st with
  | (AskOutcome.request q f, st') => (AskOutcome.request q f, askQuestionResponse st' data)
  | other => other

/-- A user-visible event the wiring at the top of the script reacts to:
dropping files on the upload area, picking files through the file input,
or clicking the submit button (whose upload settles against the given
parsed response body). -/
inductive Event where
  | drop (files : List JsFile)
  | pick (files : List JsFile)
  | clickSubmit (data : UploadResponse)
deriving DecidableEq, Repr

/-- One event step.  Returns the new state and the list of files POSTed
to `/upload` by the step.  `drop` assigns `fileInput.files` and calls
`handleFileSelect` when at least one file was dropped; `pick` is the
file input's `change` event after the browser stored the selection; a
submit click runs `uploadFile` and is only possible while the submit
button is displayed. -/
def step (st : ClientState) : Event → ClientState × List JsFile
  | Event.drop files =>
    if files.length > 0 then
      (handleFileSelect { st with fileInputFiles := files }, [])
    else
      (st, [])
  | Event.pick files =>
    (handleFileSelect { st with fileInputFiles := files }, [])
  | Event.clickSubmit data =>
    if st.submitBtnVisible then
      match uploadFileStart st with
      | (none, st') => (st', [])
      | (some f, st') => (uploadFileResponse st' data, [f])
    else
      (st, [])

/-- Run a sequence of events, accumulating every file POSTed to
`/upload` along the way. -/
def run (st : ClientState) : List Event → ClientState × List JsFile
  | [] => (st, [])
  | e :: es =>
    let r := step st e
    let r' := run r.1 es
    (r'.1, r.2 ++ r'.2)

/-- The page's initial state: the four script variables start as empty
strings, no file is selected, the transcript is empty, and the
dynamically toggled regions start hidden. -/
def initialState : ClientState where
  currentFilename := ""
  lastBullets := ""
  lastDetailed := ""
  lastShort := ""
  fileInputFiles := []
  fileNameText := ""
  fileNameVisible := false
  submitBtnVisible := false
  loaderVisible := false
  errorText := ""
  errorVisible := false
  summaryVisible := false
  summaryTitle := ""
  summaryContent := ""
  summaryModeValue := "detailed"
  activeTabs := []
  chatMessages := []
  qaLoaderVisible := false
  qaErrorText := ""
  qaErrorVisible := false
  questionInputValue := ""

/-- The spec's description of transcript rendering, as a single
per-character map: HTML-escape the text and turn each newline into a
`<br>` element; every other character passes through unchanged. -/
def specRenderChar (c : Char) : List Char :=
  if c = '&' then "&amp;".data
  else if c = '<' then "&lt;".data
  else if c = '>' then "&gt;".data
  else if c = '\n' then "<br>".data
  else [c]

/-- A sample valid selection used in concrete scenarios. -/
def goodPdf : JsFile := ⟨"doc.pdf", 1000, "application/pdf"⟩

/-- A sample non-PDF file used in concrete scenarios. -/
def badTextFile : JsFile := ⟨"evil.txt", 500, "text/plain"⟩

/-- A sample failure response body for `/upload`. -/
def emptyFailResponse : UploadResponse := ⟨false, none, none, none, none, none⟩

/-- A sample transcript entry predating a new file selection. -/
def oldChatEntry : ChatMsg := ⟨"user", "old question", "🧑 You", "old question"⟩

/-- A state carrying cached data and a transcript entry from a prior
document, with a fresh valid PDF sitting in the file input. -/
def stateWithOldChat : ClientState :=
  { initialState with
      chatMessages := [oldChatEntry]
      fileInputFiles := [goodPdf]
      lastBullets := "old bullets"
      lastDetailed := "old detailed"
      lastShort := "old short"
      currentFilename := "old.pdf"
      summaryContent := "old content" }

section Lemmas

/-- Characters produced by `escapeHtml` never include the tag delimiters
`<` or `>`. -/
lemma escapeChar_no_delims (a c : Char) (hc : c ∈ escapeChar a) :
    c ≠ '<' ∧ c ≠ '>' := by
  unfold escapeChar at hc
  split_ifs at hc with h1 h2 h3
  · exact (by decide : ∀ x ∈ "&amp;".data, x ≠ '<' ∧ x ≠ '>') c hc
  · exact (by decide : ∀ x ∈ "&lt;".data, x ≠ '<' ∧ x ≠ '>') c hc
  · exact (by decide : ∀ x ∈ "&gt;".data, x ≠ '<' ∧ x ≠ '>') c hc
  · simp at hc
    subst hc
    exact ⟨h2, h3⟩

/-- Membership form of `escapeChar_no_delims` for a whole string. -/
lemma escapeHtml_no_delims (text : String) :
    ∀ c ∈ (escapeHtml text).data, c ≠ '<' ∧ c ≠ '>' := by
  intro c hc
  have hc' : c ∈ text.data.flatMap escapeChar := hc
  rw [List.mem_flatMap] at hc'
  obtain ⟨a, _, hca⟩ := hc'
  exact escapeChar_no_delims a c hca

/-- Escaping then replacing newlines agrees with the spec's single
per-character rendering map. -/
lemma escape_then_br_eq_specRender (text : String) :
    (newlineToBr (escapeHtml text)).data = text.data.flatMap specRenderChar := by
  show (text.data.flatMap escapeChar).flatMap brChar = text.data.flatMap specRenderChar
  induction text.data with
  | nil => rfl
  | cons a l ih =>
    rw [List.flatMap_cons, List.flatMap_cons, List.flatMap_append, ih]
    congr 1
    unfold escapeChar specRenderChar brChar
    split_ifs with h1 h2 h3 h4
    · rfl
    · rfl
    · rfl
    · simp [h4]
    · simp [h4]

end Lemmas

/-- C1 (counterexample): accepting a fresh valid PDF in
`handleFileSelect` does NOT empty the chat transcript — at the concrete
state `stateWithOldChat` the selection is accepted (the submit button is
shown and the cached summaries are cleared), yet the prior transcript
entry is still present afterwards. -/
theorem handleFileSelect_keeps_transcript_cex :
    (handleFileSelect stateWithOldChat).submitBtnVisible = true ∧
    (handleFileSelect stateWithOldChat).lastBullets = "" ∧
    (handleFileSelect stateWithOldChat).chatMessages = [oldChatEntry] ∧
    (handleFileSelect stateWithOldChat).chatMessages ≠ [] := by
  refine ⟨rfl, rfl, rfl, ?_⟩
  decide

/-- C1 (amended): when `handleFileSelect` accepts a file (PDF MIME type,
size within the ceiling), it clears the cached summary variants, the
current document identifier and the rendered summary content, but it
leaves the chat transcript exactly as it was. -/
theorem handleFileSelect_clears_summary_state (st : ClientState) (file : JsFile)
    (rest : List JsFile) (hf : st.fileInputFiles = file :: rest)
    (hty : file.type = "application/pdf") (hsz : file.size ≤ maxSize) :
    (handleFileSelect st).lastBullets = "" ∧
    (handleFileSelect st).lastDetailed = "" ∧
    (handleFileSelect st).lastShort = "" ∧
    (handleFileSelect st).currentFilename = "" ∧
    (handleFileSelect st).summaryContent = "" ∧
    (handleFileSelect st).chatMessages = st.chatMessages := by
  have hlt : ¬ file.size > maxSize := by omega
  simp [handleFileSelect, hf, hty, hlt]

/-- C1 (witness for the amended theorem): the amended clearing behavior
at the concrete state `stateWithOldChat`. -/
theorem handleFileSelect_clears_summary_state_witness :
    (handleFileSelect stateWithOldChat).lastBullets = "" ∧
    (handleFileSelect stateWithOldChat).lastDetailed = "" ∧
    (handleFileSelect stateWithOldChat).lastShort = "" ∧
    (handleFileSelect stateWithOldChat).currentFilename = "" ∧
    (handleFileSelect stateWithOldChat).summaryContent = "" ∧
    (handleFileSelect stateWithOldChat).chatMessages = stateWithOldChat.chatMessages :=
  handleFileSelect_clears_summary_state stateWithOldChat goodPdf [] rfl rfl (by decide)

/-- C2 (the code violates the claim): after a valid PDF is picked (so
the submit button is displayed), dropping the non-PDF `evil.txt` is
rejected with the inline MIME error and issues no request — but the
dropped file replaced `fileInput.files`, and a subsequent click on the
still-visible submit button POSTs `evil.txt` to `/upload`. -/
theorem nonPdf_uploaded_after_drop_then_submit :
    badTextFile.type ≠ "application/pdf" ∧
    ((run initialState [Event.pick [goodPdf], Event.drop [badTextFile]]).1).errorText
      = "❌ Please upload a PDF file" ∧
    ((run initialState [Event.pick [goodPdf], Event.drop [badTextFile]]).1).submitBtnVisible
      = true ∧
    (run initialState [Event.pick [goodPdf], Event.drop [badTextFile]]).2 = [] ∧
    (run initialState [Event.pick [goodPdf], Event.drop [badTextFile],
        Event.clickSubmit emptyFailResponse]).2 = [badTextFile] := by
  exact ⟨by decide, rfl, rfl, rfl, rfl⟩

/-- C3: `addChatMessage` appends one entry whose rendered body is the
HTML-escaped text with every newline replaced by a `<br>` element; the
escaped text contains no `<` or `>` character at all (so no markup from
the message text — e.g. a `<script>` substring — survives as an
element), and the whole rendering coincides with the spec's
per-character safe map `specRenderChar`. -/
theorem addChatMessage_renders_escaped (st : ClientState) (role text : String) :
    (addChatMessage st role text).chatMessages =
      st.chatMessages ++
        [⟨role, text, if role = "user" then "🧑 You" else "🤖 sunny",
          newlineToBr (escapeHtml text)⟩] ∧
    (∀ c ∈ (escapeHtml text).data, c ≠ '<' ∧ c ≠ '>') ∧
    (newlineToBr (escapeHtml text)).data = text.data.flatMap specRenderChar :=
  ⟨rfl, escapeHtml_no_delims text, escape_then_br_eq_specRender text⟩

/-- C3 (witness): the rendering at a concrete hostile message containing
a `<script>` substring and a newline: the transcript gains the literal
escaped text with a `<br>` in place of the newline. -/
theorem addChatMessage_renders_escaped_witness :
    (addChatMessage initialState "assistant" "<script>alert(1)</script>\nok").chatMessages =
      [⟨"assistant", "<script>alert(1)</script>\nok", "🤖 sunny",
        "&lt;script&gt;alert(1)&lt;/script&gt;<br>ok"⟩] := by
  rw [(addChatMessage_renders_escaped initialState "assistant"
        "<script>alert(1)</script>\nok").1]
  rfl

/-- C4: after a successful upload (a document identifier is present),
asking a non-empty question whose `/ask` response parses to
`{success: true, answer: "Paris"}` leaves the transcript extended by
exactly two entries in order — the user's question text, then the
assistant text `"Paris"` — and clears the question input field. -/
theorem askQuestion_success_appends_pair (st : ClientState)
    (hf : st.currentFilename ≠ "") (hq : (jsTrim st.questionInputValue) ≠ "") :
    (askQuestion st ⟨true, some "Paris", none⟩).2.chatMessages =
      st.chatMessages ++
        [⟨"user", (jsTrim st.questionInputValue), "🧑 You",
          newlineToBr (escapeHtml (jsTrim st.questionInputValue))⟩,
         ⟨"assistant", "Paris", "🤖 sunny", newlineToBr (escapeHtml "Paris")⟩] ∧
    (askQuestion st ⟨true, some "Paris", none⟩).2.questionInputValue = "" := by
  simp [askQuestion, askQuestionStart, askQuestionResponse, addChatMessage, hf, hq, jsOrOpt]

/-- C4 (witness): the success scenario at a concrete state with a stored
document identifier and the question `"capital?"`. -/
theorem askQuestion_success_appends_pair_witness :
    (askQuestion { initialState with
        currentFilename := "doc.pdf", questionInputValue := "capital?" }
      ⟨true, some "Paris", none⟩).2.chatMessages =
      ({ initialState with
          currentFilename := "doc.pdf", questionInputValue := "capital?" } :
        ClientState).chatMessages ++
        [⟨"user", jsTrim "capital?", "🧑 You",
          newlineToBr (escapeHtml (jsTrim "capital?"))⟩,
         ⟨"assistant", "Paris", "🤖 sunny", newlineToBr (escapeHtml "Paris")⟩] ∧
    (askQuestion { initialState with
        currentFilename := "doc.pdf", questionInputValue := "capital?" }
      ⟨true, some "Paris", none⟩).2.questionInputValue = "" :=
  askQuestion_success_appends_pair
    { initialState with currentFilename := "doc.pdf", questionInputValue := "capital?" }
    (by decide) (by decide)

/-- C5: when the `/ask` response parses to
`{success: false, error: "no document"}`, the optimistically appended
user question stays in the transcript, and the QA error region becomes
visible showing a message that contains `"no document"`. -/
theorem askQuestion_failure_keeps_question (st : ClientState)
    (hf : st.currentFilename ≠ "") (hq : (jsTrim st.questionInputValue) ≠ "") :
    (askQuestion st ⟨false, none, some "no document"⟩).2.chatMessages =
      st.chatMessages ++
        [⟨"user", (jsTrim st.questionInputValue), "🧑 You",
          newlineToBr (escapeHtml (jsTrim st.questionInputValue))⟩] ∧
    (askQuestion st ⟨false, none, some "no document"⟩).2.qaErrorVisible = true ∧
    ∃ a b : String,
      (askQuestion st ⟨false, none, some "no document"⟩).2.qaErrorText =
        a ++ "no document" ++ b := by
  refine ⟨?_, ?_, "❌ ", "", ?_⟩ <;>
    simp [askQuestion, askQuestionStart, askQuestionResponse, addChatMessage,
      showQAError, hf, hq, jsOrOpt]

/-- C5 (witness): the failure scenario at a concrete state with a stored
document identifier and the question `"capital?"`. -/
theorem askQuestion_failure_keeps_question_witness :
    (askQuestion { initialState with
        currentFilename := "doc.pdf", questionInputValue := "capital?" }
      ⟨false, none, some "no document"⟩).2.chatMessages =
      ({ initialState with
          currentFilename := "doc.pdf", questionInputValue := "capital?" } :
        ClientState).chatMessages ++
        [⟨"user", jsTrim "capital?", "🧑 You",
          newlineToBr (escapeHtml (jsTrim "capital?"))⟩] ∧
    (askQuestion { initialState with
        currentFilename := "doc.pdf", questionInputValue := "capital?" }
      ⟨false, none, some "no document"⟩).2.qaErrorVisible = true ∧
    ∃ a b : String,
      (askQuestion { initialState with
          currentFilename := "doc.pdf", questionInputValue := "capital?" }
        ⟨false, none, some "no document"⟩).2.qaErrorText =
        a ++ "no document" ++ b :=
  askQuestion_failure_keeps_question
    { initialState with currentFilename := "doc.pdf", questionInputValue := "capital?" }
    (by decide) (by decide)

/-- C6: `askQuestion` issues a `POST /ask` (carrying the trimmed
question and the stored document identifier) exactly when a document
identifier is present and the trimmed question is non-empty; when the
identifier is absent, or the trimmed question is empty, the user gets
the corresponding local alert and the state — the transcript included —
is left completely unchanged, with no network request. -/
theorem askQuestion_preconditions (st : ClientState) :
    ((askQuestionStart st).1 =
        AskOutcome.request (jsTrim st.questionInputValue) st.currentFilename ↔
      st.currentFilename ≠ "" ∧ (jsTrim st.questionInputValue) ≠ "") ∧
    (st.currentFilename = "" →
      askQuestionStart st = (AskOutcome.alertNoUpload, st)) ∧
    (st.currentFilename ≠ "" → (jsTrim st.questionInputValue) = "" →
      askQuestionStart st = (AskOutcome.alertEmptyQuestion, st)) := by
  by_cases hf : st.currentFilename = "" <;>
    by_cases hq : (jsTrim st.questionInputValue) = "" <;>
      simp [askQuestionStart, hf, hq]

/-- C6 (witness): at the initial state no document identifier is stored,
so asking produces the local no-upload alert and leaves the state
untouched. -/
theorem askQuestion_preconditions_witness :
    askQuestionStart initialState = (AskOutcome.alertNoUpload, initialState) :=
  (askQuestion_preconditions initialState).2.1 rfl

/-- C7: for a selected PDF file, the size check accepts a size of
exactly `20 * 1024 * 1024` bytes (submit enabled, error hidden) and
rejects any size of at least `20 * 1024 * 1024 + 1` bytes with the
size-error message; the selection event itself never issues an upload
request. -/
theorem fileSize_boundary (st : ClientState) (file : JsFile) (rest : List JsFile)
    (hf : st.fileInputFiles = file :: rest) (hty : file.type = "application/pdf") :
    (file.size = 20 * 1024 * 1024 →
      (handleFileSelect st).submitBtnVisible = true ∧
      (handleFileSelect st).errorVisible = false) ∧
    (file.size ≥ 20 * 1024 * 1024 + 1 →
      handleFileSelect st = showError st "❌ File too large (max 20MB)" ∧
      (step st (Event.pick (file :: rest))).2 = []) := by
  constructor
  · intro hsz
    have hlt : ¬ file.size > maxSize := by simp [maxSize, hsz]
    simp [handleFileSelect, hf, hty, hlt]
  · intro hsz
    have hgt : file.size > maxSize := by simp only [maxSize]; omega
    constructor
    · simp [handleFileSelect, hf, hty, hgt]
    · rfl

/-- C7 (witness): the boundary at two concrete files, one of exactly
`20 * 1024 * 1024` bytes (accepted) and one a single byte larger
(rejected with the size-error message). -/
theorem fileSize_boundary_witness :
    ((handleFileSelect { initialState with
        fileInputFiles := [⟨"big.pdf", 20 * 1024 * 1024, "application/pdf"⟩] }).submitBtnVisible
      = true ∧
     (handleFileSelect { initialState with
        fileInputFiles := [⟨"big.pdf", 20 * 1024 * 1024, "application/pdf"⟩] }).errorVisible
      = false) ∧
    handleFileSelect { initialState with
        fileInputFiles := [⟨"huge.pdf", 20 * 1024 * 1024 + 1, "application/pdf"⟩] }
      = showError { initialState with
          fileInputFiles := [⟨"huge.pdf", 20 * 1024 * 1024 + 1, "application/pdf"⟩] }
          "❌ File too large (max 20MB)" :=
  ⟨(fileSize_boundary
      { initialState with
          fileInputFiles := [⟨"big.pdf", 20 * 1024 * 1024, "application/pdf"⟩] }
      ⟨"big.pdf", 20 * 1024 * 1024, "application/pdf"⟩ [] rfl rfl).1 rfl,
   ((fileSize_boundary
      { initialState with
          fileInputFiles := [⟨"huge.pdf", 20 * 1024 * 1024 + 1, "application/pdf"⟩] }
      ⟨"huge.pdf", 20 * 1024 * 1024 + 1, "application/pdf"⟩ [] rfl rfl).2
      (by decide)).1⟩

/-- C8: whenever the cached text of the selected variant is the empty
string, `showSelectedSummary` renders that variant's fixed
"not available" placeholder — and each placeholder is a non-empty
string. -/
theorem emptyVariant_renders_placeholder (st : ClientState) :
    ("No bullet summary available." ≠ "" ∧
     "No short overview available." ≠ "" ∧
     "No detailed overview available." ≠ "") ∧
    (st.summaryModeValue = "bullets" → st.lastBullets = "" →
      (showSelectedSummary st).summaryContent = "No bullet summary available.") ∧
    (st.summaryModeValue = "short" → st.lastShort = "" →
      (showSelectedSummary st).summaryContent = "No short overview available.") ∧
    (st.summaryModeValue = "detailed" → st.lastDetailed = "" →
      (showSelectedSummary st).summaryContent = "No detailed overview available.") := by
  refine ⟨⟨by decide, by decide, by decide⟩, ?_, ?_, ?_⟩ <;>
    · intro hm he
      simp [showSelectedSummary, jsOrStr, hm, he]

/-- C8 (witness): selecting the bullet variant while its cached text is
empty renders the bullet placeholder. -/
theorem emptyVariant_renders_placeholder_witness :
    (showSelectedSummary { initialState with
        summaryModeValue := "bullets" }).summaryContent
      = "No bullet summary available." :=
  (emptyVariant_renders_placeholder
    { initialState with summaryModeValue := "bullets" }).2.1 rfl rfl

/-- C9: for every variant key, the dropdown `change` path and the
tab-button `click` path run the same render function and end in the same
state — in particular the same title and body text — and for each of the
fixed variant keys the active-highlight class lands on exactly the
corresponding tab control. -/
theorem variant_selection_paths_agree (key : String) (st : ClientState) :
    summaryModeChange key st = tabBtnClick key st ∧
    (summaryModeChange key st).summaryTitle = (tabBtnClick key st).summaryTitle ∧
    (summaryModeChange key st).summaryContent = (tabBtnClick key st).summaryContent ∧
    (key ∈ tabModes → (tabBtnClick key st).activeTabs = [key]) := by
  refine ⟨rfl, rfl, rfl, ?_⟩
  intro hk
  have : (tabBtnClick key st).activeTabs = tabModes.filter (fun m => m == key) := rfl
  rw [this]
  simp only [tabModes, List.mem_cons, List.mem_singleton, List.not_mem_nil,
    or_false] at hk
  rcases hk with rfl | rfl | rfl <;> decide

/-- C9 (witness): both selection paths at the concrete key `"short"`
from the initial state, with the highlight on exactly the `"short"`
tab. -/
theorem variant_selection_paths_agree_witness :
    summaryModeChange "short" initialState = tabBtnClick "short" initialState ∧
    (tabBtnClick "short" initialState).activeTabs = ["short"] :=
  ⟨(variant_selection_paths_agree "short" initialState).1,
   (variant_selection_paths_agree "short" initialState).2.2.2 (by decide)⟩

/-- C10: an `/upload` response that signals success but carries no
`filename` field stores the empty string as the document identifier and
still reveals the summary section; consequently any later `askQuestion`
hits the local no-document precondition — it alerts, changes nothing,
and issues no `/ask` request. -/
theorem missing_filename_blocks_ask (st : ClientState) (data : UploadResponse)
    (hs : data.success = true) (hfn : data.filename = none) :
    (uploadFileResponse st data).currentFilename = "" ∧
    (uploadFileResponse st data).summaryVisible = true ∧
    ∀ q : String,
      askQuestionStart
          { uploadFileResponse st data with questionInputValue := q }
        = (AskOutcome.alertNoUpload,
           { uploadFileResponse st data with questionInputValue := q }) := by
  have h1 : (uploadFileResponse st data).currentFilename = "" := by
    simp [uploadFileResponse, showSelectedSummary, hs, hfn, jsOrOpt]
  refine ⟨h1, ?_, ?_⟩
  · simp [uploadFileResponse, showSelectedSummary, hs]
  · intro q
    simp [askQuestionStart, h1]

/-- C10 (witness): the blocked-ask behavior at the initial state and a
concrete success response with summaries but no `filename` field. -/
theorem missing_filename_blocks_ask_witness :
    (uploadFileResponse initialState
        ⟨true, none, some "b", some "d", some "s", none⟩).currentFilename = "" ∧
    (uploadFileResponse initialState
        ⟨true, none, some "b", some "d", some "s", none⟩).summaryVisible = true ∧
    askQuestionStart
        { uploadFileResponse initialState
            ⟨true, none, some "b", some "d", some "s", none⟩ with
          questionInputValue := "what?" }
      = (AskOutcome.alertNoUpload,
         { uploadFileResponse initialState
             ⟨true, none, some "b", some "d", some "s", none⟩ with
           questionInputValue := "what?" }) :=
  ⟨(missing_filename_blocks_ask initialState
      ⟨true, none, some "b", some "d", some "s", none⟩ rfl rfl).1,
   (missing_filename_blocks_ask initialState
      ⟨true, none, some "b", some "d", some "s", none⟩ rfl rfl).2.1,
   (missing_filename_blocks_ask initialState
      ⟨true, none, some "b", some "d", some "s", none⟩ rfl rfl).2.2 "what?"⟩

end InteractiveDocument
